import Mathlib

/-
  Verification development for the mysql-mcp server (src/index.ts).

  The file shallowly embeds the pieces of the program that the claims are
  about: the SQL guard (checkSQLSecurity, checkQueryLimits), the three
  executors (executeQuery, executeReadOnlyQuery, executeModifyQuery), the
  instrumentation wrapper (withPerformanceMonitoring) and the tool
  dispatcher branches.  Effectful driver calls (pool acquisition,
  transaction commands, statement execution) are modelled by a World
  oracle that fixes the outcome of each driver call, by an explicit trace
  of issued actions, and by a small connection/database state record.
  Awaited driver calls are modelled as fallible steps whose failure
  propagates at the await, matching the promise wrappers in the source.
-/

namespace MysqlMcp

/-- Whitespace character class of the source regexes and of the JS trim,
restricted to the ASCII range used by the statements under analysis:
space, tab, line feed, carriage return, vertical tab, form feed. -/
def isJsWs (c : Char) : Bool :=
  c = ' ' || c = '\t' || c = '\n' || c = '\r' || c = '\x0b' || c = '\x0c'

/-- Element of one of the fixed source regexes: a literal character
(matched case-insensitively), a star of whitespace, or a plus of
whitespace.  The eight denylist patterns of checkSQLSecurity are built
from exactly these three constructs. -/
inductive RElem
  | lit : Char → RElem
  | wsStar : RElem
  | wsPlus : RElem
deriving DecidableEq, Repr

/-- Literal elements for a keyword of a pattern. -/
def lits (s : String) : List RElem :=
  s.data.map RElem.lit

/-- Matcher for a pattern against a prefix of the text.  In every source
pattern each whitespace class is followed by a non-whitespace literal or
by the end of the pattern, so consuming the maximal whitespace span is
equivalent to the backtracking regex semantics. -/
def matchHere : List RElem → List Char → Bool
  | [], _ => true
  | RElem.lit _ :: _, [] => false
  | RElem.lit c :: ps, x :: xs => (x.toUpper == c.toUpper) && matchHere ps xs
  | RElem.wsStar :: ps, s => matchHere ps (s.dropWhile isJsWs)
  | RElem.wsPlus :: _, [] => false
  | RElem.wsPlus :: ps, x :: xs => isJsWs x && matchHere ps (xs.dropWhile isJsWs)

/-- Regex test: the pattern matches at some position of the text. -/
def rtest (p : List RElem) : List Char → Bool
  | [] => matchHere p []
  | x :: xs => matchHere p (x :: xs) || rtest p xs

/-- Source pattern 1 of checkSQLSecurity: semicolon, optional whitespace,
DROP, whitespace. -/
def patSemiDrop : List RElem :=
  [RElem.lit ';', RElem.wsStar] ++ lits ("DROP") ++ [RElem.wsPlus]

/-- Source pattern 2: semicolon, optional whitespace, DELETE, whitespace,
FROM, whitespace. -/
def patSemiDeleteFrom : List RElem :=
  [RElem.lit ';', RElem.wsStar] ++ lits ("DELETE") ++ [RElem.wsPlus] ++
    lits ("FROM") ++ [RElem.wsPlus]

/-- Source pattern 3: semicolon, optional whitespace, UPDATE, whitespace. -/
def patSemiUpdate : List RElem :=
  [RElem.lit ';', RElem.wsStar] ++ lits ("UPDATE") ++ [RElem.wsPlus]

/-- Source pattern 4: semicolon, optional whitespace, INSERT, whitespace. -/
def patSemiInsert : List RElem :=
  [RElem.lit ';', RElem.wsStar] ++ lits ("INSERT") ++ [RElem.wsPlus]

/-- Source pattern 5: the keyword EXECUTE followed by whitespace. -/
def patExecute : List RElem :=
  lits ("EXECUTE") ++ [RElem.wsPlus]

/-- Source pattern 6: the keyword EXEC followed by whitespace. -/
def patExec : List RElem :=
  lits ("EXEC") ++ [RElem.wsPlus]

/-- Source pattern 7: INTO, whitespace, OUTFILE. -/
def patIntoOutfile : List RElem :=
  lits ("INTO") ++ [RElem.wsPlus] ++ lits ("OUTFILE")

/-- Source pattern 8: INTO, whitespace, DUMPFILE. -/
def patIntoDumpfile : List RElem :=
  lits ("INTO") ++ [RElem.wsPlus] ++ lits ("DUMPFILE")

/-- The dangerousPatterns array of checkSQLSecurity, in source order. -/
def dangerousPatterns : List (List RElem) :=
  [patSemiDrop, patSemiDeleteFrom, patSemiUpdate, patSemiInsert,
   patExecute, patExec, patIntoOutfile, patIntoDumpfile]

/-- Verdict record of the guard, mirroring the SQLSecurityCheck interface. -/
structure SQLSecurityCheck where
  safe : Bool
  reason : Option String
deriving DecidableEq, Repr

/-- Maximum SQL length from serverConfig.limits.maxQueryLength. -/
def maxQueryLength : Nat := 4096

/-- Rejection message of checkQueryLimits, with the configured limit
interpolated as in the source template string. -/
def limitReason : String :=
  "SQL 查詢長度超過限制 (" ++ toString maxQueryLength ++ " 字元)"

/-- Rejection message of checkSQLSecurity. -/
def injectionReason : String := "檢測到潛在的 SQL 注入攻擊"

/-- Length limit check of the source (checkQueryLimits). -/
def checkQueryLimits (sql : String) : SQLSecurityCheck :=
  if sql.length > maxQueryLength then
    { safe := false, reason := some limitReason }
  else
    { safe := true, reason := none }

/-- Denylist guard of the source (checkSQLSecurity).  The source loop
returns on the first matching pattern with a fixed reason, which is
equivalent to testing whether any pattern matches. -/
def checkSQLSecurity (sql : String) : SQLSecurityCheck :=
  if dangerousPatterns.any (fun p => rtest p sql.data) then
    { safe := false, reason := some injectionReason }
  else
    { safe := true, reason := none }

/-- First-token classifier used by the mysql_execute dispatcher branch and
by executeModifyQuery to derive sqlType: trim, split on the single space
character, take component zero, uppercase. -/
def firstTokenUpper (sql : String) : String :=
  String.mk ((((sql.data.dropWhile isJsWs).reverse.dropWhile isJsWs).reverse.takeWhile
    (fun c => c != ' ')).map Char.toUpper)

/-- Row of information_schema.tables used by the catalog queries. -/
structure TableRow where
  tableSchema : String
  tableName : String
deriving DecidableEq, Repr

/-- Row of information_schema.columns used by the catalog queries. -/
structure ColumnRow where
  tableSchema : String
  tableName : String
  columnName : String
  dataType : String
deriving DecidableEq, Repr

/-- The server-side catalog visible to the connection: the database the
connection is attached to (the value of the DATABASE() function) and the
catalog rows of every schema on the server. -/
structure ServerCatalog where
  currentDb : String
  tables : List TableRow
  columns : List ColumnRow
deriving DecidableEq, Repr

/-- Catalog query string issued by list_tables and by resource listing. -/
def listTablesQuery : String :=
  "SELECT table_name FROM information_schema.tables WHERE table_schema = DATABASE()"

/-- Catalog query string issued by describe_table and by resource reading
(COLUMN_METADATA_QUERY in the source). -/
def columnMetadataQuery : String :=
  "SELECT column_name, data_type FROM information_schema.columns WHERE table_schema = DATABASE() AND table_name = ?"

/-- Denotation of the two fixed catalog query strings against the server
catalog.  The tables query keeps the rows whose table_schema equals
DATABASE() and projects table_name; the columns query additionally binds
the table name placeholder to the first parameter and projects
column_name and data_type.  Any other statement is not a catalog query
and returns no catalog rows here. -/
def evalCatalogQuery (cat : ServerCatalog) (q : String) (params : List String) :
    List (List String) :=
  if q == listTablesQuery then
    (cat.tables.filter (fun r => r.tableSchema == cat.currentDb)).map
      (fun r => [r.tableName])
  else if q == columnMetadataQuery then
    match params with
    | [t] =>
      (cat.columns.filter (fun r => r.tableSchema == cat.currentDb && r.tableName == t)).map
        (fun r => [r.columnName, r.dataType])
    | _ => []
  else []

/-- Structured log record emitted by logQuery via the instrumentation
wrapper (QueryLog in the source, with the wall-clock fields abstracted to
a duration value supplied by the oracle). -/
structure LogEntry where
  operation : String
  sql : String
  duration : Nat
  success : Bool
  error : Option String
  affectedRows : Option Nat
deriving DecidableEq, Repr

/-- Observable driver-level action issued during a call.  Failed driver
calls are still recorded: the command was issued even when it errored. -/
inductive Action
  | acquire
  | setReadOnly
  | beginTx
  | runQuery : String → Action
  | commit
  | rollback
  | setReadWrite
  | release
  | log : LogEntry → Action
deriving DecidableEq, Repr

/-- Connection and database state threaded through one executor call. -/
structure RunState where
  sessionReadOnly : Bool
  txOpen : Bool
  releaseCount : Nat
  committed : Int
  pending : Int
deriving DecidableEq, Repr

/-- Oracle fixing the outcome of every driver call made during one
executor invocation, together with the data the database would produce:
the net committed effect of the statement, the driver result fields, the
measured duration and the initial committed database value. -/
structure World where
  poolOk : Bool
  setReadOnlyOk : Bool
  beginOk : Bool
  queryOk : Bool
  commitOk : Bool
  setReadWriteOk : Bool
  effect : Int
  affectedRows : Option Nat
  insertId : Option Nat
  resultMessage : Option String
  dur : Nat
  dbInit : Int
  catalog : ServerCatalog
deriving DecidableEq, Repr

/-- Initial state of a call: fresh session, no transaction, no release
yet, committed database at its initial value. -/
def initState (w : World) : RunState :=
  { sessionReadOnly := false, txOpen := false, releaseCount := 0,
    committed := w.dbInit, pending := 0 }

/-- Error message of a failed pool acquisition. -/
def connErrMsg : String := "connection error"

/-- Result record of executeModifyQuery (SQLExecuteResult in the source,
without the unused data field). -/
structure SQLExecuteResult where
  success : Bool
  affectedRows : Option Nat
  insertId : Option Nat
  message : Option String
deriving DecidableEq, Repr

/-- Response envelope of the read-only executor (content text omitted,
only the error flag matters to the claims). -/
structure QueryEnvelope where
  isError : Bool
deriving DecidableEq, Repr

/-- Instrumentation wrapper (withPerformanceMonitoring): runs the action,
appends exactly one log entry recording the operation label, statement,
duration and outcome, and passes the result through unchanged, re-raising
an error after logging it.  On success the affected row count is read off
the result by the getAff projection, as the source reads
result.affectedRows. -/
def withPerformanceMonitoring {α : Type} (operation sql : String) (dur : Nat)
    (getAff : α → Option Nat)
    (action : RunState → Except String α × List Action × RunState)
    (s : RunState) : Except String α × List Action × RunState :=
  match action s with
  | (Except.ok v, tr, s2) =>
      (Except.ok v,
       tr ++ [Action.log { operation := operation, sql := sql, duration := dur,
                           success := true, error := none, affectedRows := getAff v }],
       s2)
  | (Except.error e, tr, s2) =>
      (Except.error e,
       tr ++ [Action.log { operation := operation, sql := sql, duration := dur,
                           success := false, error := some e, affectedRows := none }],
       s2)

/-- Body of the modify transaction (the async action passed to the
wrapper in executeModifyQuery): begin, run the statement, commit. -/
def modifyAction (w : World) (sql : String) (s : RunState) :
    Except String SQLExecuteResult × List Action × RunState :=
  if w.beginOk then
    if w.queryOk then
      if w.commitOk then
        (Except.ok { success := true, affectedRows := w.affectedRows,
                     insertId := w.insertId, message := w.resultMessage },
         [Action.beginTx, Action.runQuery sql, Action.commit],
         { s with txOpen := false,
                  committed := s.committed + (s.pending + w.effect),
                  pending := 0 })
      else
        (Except.error ("commit failed"),
         [Action.beginTx, Action.runQuery sql, Action.commit],
         { s with txOpen := true, pending := s.pending + w.effect })
    else
      (Except.error ("query failed"),
       [Action.beginTx, Action.runQuery sql],
       { s with txOpen := true })
  else
    (Except.error ("begin failed"), [Action.beginTx], s)

/-- Modify executor (executeModifyQuery): acquires a connection, runs the
guard (returning a structured failure, without releasing, when unsafe),
derives the operation label from the first token, then runs the
transaction under the instrumentation wrapper inside try/catch/finally:
the catch rolls back and converts the error to a structured failure, the
finally releases the connection. -/
def executeModifyQuery (w : World) (sql : String) (_params : List String) :
    Except String SQLExecuteResult × List Action × RunState :=
  if w.poolOk then
    let securityCheck := checkSQLSecurity sql
    if securityCheck.safe then
      match withPerformanceMonitoring (firstTokenUpper sql) sql w.dur
              (fun r => r.affectedRows) (modifyAction w sql) (initState w) with
      | (Except.ok v, tr, s1) =>
          (Except.ok v,
           Action.acquire :: tr ++ [Action.release],
           { s1 with releaseCount := s1.releaseCount + 1 })
      | (Except.error e, tr, s1) =>
          (Except.ok { success := false, affectedRows := none, insertId := none,
                       message := some e },
           Action.acquire :: tr ++ [Action.rollback, Action.release],
           { s1 with txOpen := false, pending := 0,
                     releaseCount := s1.releaseCount + 1 })
    else
      (Except.ok { success := false, affectedRows := none, insertId := none,
                   message := securityCheck.reason },
       [Action.acquire], initState w)
  else
    (Except.error connErrMsg, [], initState w)

/-- Body of the read-only snapshot (the async action passed to the
wrapper in executeReadOnlyQuery): set the session read-only, begin, run
the statement, roll back, set the session back to read-write. -/
def readOnlyAction (w : World) (sql : String) (s : RunState) :
    Except String QueryEnvelope × List Action × RunState :=
  if w.setReadOnlyOk then
    if w.beginOk then
      if w.queryOk then
        if w.setReadWriteOk then
          (Except.ok { isError := false },
           [Action.setReadOnly, Action.beginTx, Action.runQuery sql,
            Action.rollback, Action.setReadWrite],
           { s with sessionReadOnly := false, txOpen := false, pending := 0 })
        else
          (Except.error ("set read write failed"),
           [Action.setReadOnly, Action.beginTx, Action.runQuery sql,
            Action.rollback, Action.setReadWrite],
           { s with sessionReadOnly := true, txOpen := false, pending := 0 })
      else
        (Except.error ("query failed"),
         [Action.setReadOnly, Action.beginTx, Action.runQuery sql],
         { s with sessionReadOnly := true, txOpen := true })
    else
      (Except.error ("begin failed"),
       [Action.setReadOnly, Action.beginTx],
       { s with sessionReadOnly := true })
  else
    (Except.error ("set read only failed"), [Action.setReadOnly], s)

/-- Read-only executor (executeReadOnlyQuery): acquires a connection,
runs the guard (throwing, without releasing, when unsafe), then runs the
snapshot read under the instrumentation wrapper with the fixed SELECT
label inside try/catch/finally: the catch rolls back and rethrows, the
finally releases the connection. -/
def executeReadOnlyQuery (w : World) (sql : String) :
    Except String QueryEnvelope × List Action × RunState :=
  if w.poolOk then
    let securityCheck := checkSQLSecurity sql
    if securityCheck.safe then
      match withPerformanceMonitoring ("SELECT") sql w.dur
              (fun _ => none) (readOnlyAction w sql) (initState w) with
      | (Except.ok v, tr, s1) =>
          (Except.ok v,
           Action.acquire :: tr ++ [Action.release],
           { s1 with releaseCount := s1.releaseCount + 1 })
      | (Except.error e, tr, s1) =>
          (Except.error e,
           Action.acquire :: tr ++ [Action.rollback, Action.release],
           { s1 with txOpen := false, pending := 0,
                     releaseCount := s1.releaseCount + 1 })
    else
      (Except.error (securityCheck.reason.getD ("")), [Action.acquire], initState w)
  else
    (Except.error connErrMsg, [], initState w)

/-- Generic executor (executeQuery): acquires a connection, runs the
guard and then the length limit check (throwing, without releasing, when
either rejects), then runs the statement under the instrumentation
wrapper inside try/finally, the finally releasing the connection.  The
rows come from the catalog denotation of the statement. -/
def executeQuery (w : World) (sql : String) (params : List String) :
    Except String (List (List String)) × List Action × RunState :=
  if w.poolOk then
    let securityCheck := checkSQLSecurity sql
    if securityCheck.safe then
      let limitsCheck := checkQueryLimits sql
      if limitsCheck.safe then
        match withPerformanceMonitoring ("SELECT") sql w.dur
                (fun _ => none)
                (fun s =>
                  if w.queryOk then
                    (Except.ok (evalCatalogQuery w.catalog sql params),
                     [Action.runQuery sql], s)
                  else
                    (Except.error ("query failed"), [Action.runQuery sql], s))
                (initState w) with
        | (r, tr, s1) =>
            (r, Action.acquire :: tr ++ [Action.release],
             { s1 with releaseCount := s1.releaseCount + 1 })
      else
        (Except.error (limitsCheck.reason.getD ("")), [Action.acquire], initState w)
    else
      (Except.error (securityCheck.reason.getD ("")), [Action.acquire], initState w)
  else
    (Except.error connErrMsg, [], initState w)

/-- Usage-guidance error of the mysql_execute dispatcher branch. -/
def usageGuidanceMsg : String := "請使用 mysql_query 執行查詢操作"

/-- Dispatcher branch for mysql_query: routes directly to the read-only
executor. -/
def mysqlQueryHandler (w : World) (sql : String) :
    Except String QueryEnvelope × List Action × RunState :=
  executeReadOnlyQuery w sql

/-- Dispatcher branch for mysql_execute: classifies the statement by its
first space-delimited token, throws the usage-guidance error when that
token uppercases to SELECT, and otherwise routes to the modify executor,
wrapping the structured result with an isError flag equal to the negated
success flag. -/
def mysqlExecuteHandler (w : World) (sql : String) (params : List String) :
    Except String (SQLExecuteResult × Bool) × List Action × RunState :=
  if firstTokenUpper sql == "SELECT" then
    (Except.error usageGuidanceMsg, [], initState w)
  else
    match executeModifyQuery w sql params with
    | (Except.ok result, tr, s) => (Except.ok (result, !result.success), tr, s)
    | (Except.error e, tr, s) => (Except.error e, tr, s)

/-- Dispatcher branch for list_tables: the fixed tables catalog query
through the generic executor. -/
def listTablesHandler (w : World) :
    Except String (List (List String)) × List Action × RunState :=
  executeQuery w listTablesQuery []

/-- Dispatcher branch for describe_table: requires a non-empty table name
(the source tests JS falsiness, so a missing and an empty name both fail
validation), then the fixed columns catalog query through the generic
executor. -/
def describeTableHandler (w : World) (table : Option String) :
    Except String (List (List String)) × List Action × RunState :=
  match table with
  | none => (Except.error ("Table name is required"), [], initState w)
  | some t =>
    if t == "" then (Except.error ("Table name is required"), [], initState w)
    else executeQuery w columnMetadataQuery [t]

/-- Resource-listing handler: the same fixed tables catalog query. -/
def listResourcesHandler (w : World) :
    Except String (List (List String)) × List Action × RunState :=
  executeQuery w listTablesQuery []

/-- Resource-reading handler: splits the URI path on slashes, pops the
last component as the schema marker and the one before it as the table
name, rejects when the marker is not the schema path, and otherwise runs
the fixed columns catalog query.  A missing table component is modelled
as the empty bind value. -/
def readResourceHandler (w : World) (pathname : String) :
    Except String (List (List String)) × List Action × RunState :=
  let comps := pathname.splitOn ("/")
  if comps.getLast? == some ("schema") then
    executeQuery w columnMetadataQuery [(comps.dropLast.getLast?).getD ("")]
  else
    (Except.error ("Invalid resource URI"), [], initState w)

/-- Catalog with two schemas on the same server, the connection attached
to the main schema: exercises the cross-schema scoping claims. -/
def crossCatalog : ServerCatalog :=
  { currentDb := "main",
    tables := [{ tableSchema := "main", tableName := "users" },
               { tableSchema := "other", tableName := "secrets" }],
    columns := [{ tableSchema := "main", tableName := "users",
                  columnName := "id", dataType := "int" },
                { tableSchema := "other", tableName := "secrets",
                  columnName := "keymat", dataType := "text" }] }

/-- World in which every driver call succeeds. -/
def allOkWorld : World :=
  { poolOk := true, setReadOnlyOk := true, beginOk := true, queryOk := true,
    commitOk := true, setReadWriteOk := true, effect := 1,
    affectedRows := some 1, insertId := some 7, resultMessage := none,
    dur := 5, dbInit := 0, catalog := crossCatalog }

/-- World in which the commit step fails. -/
def commitFailWorld : World :=
  { allOkWorld with commitOk := false }

/-- World in which the statement execution step fails. -/
def queryFailWorld : World :=
  { allOkWorld with queryOk := false }

/-- Statement used by the modify witnesses. -/
def insertSql : String := "INSERT INTO t VALUES (1)"

/-- Statement whose SELECT keyword is followed by a newline instead of a
space. -/
def newlineSelectSql : String := "SELECT\n* FROM t"

/-- Guard-rejected statement used by the leak evaluations. -/
def execSql : String := "EXEC x"

/-- Guard-rejected statement used by the C8 counterexample. -/
def executeKwSql : String := "EXECUTE foo"

/-- Statement of length 4097, one character over the configured maximum,
matching no denylist pattern. -/
def longSql : String := String.mk (List.replicate 4097 'a')

/-- Statement of length 4200 used by the C9 counterexample. -/
def longSqlCex : String := String.mk (List.replicate 4200 'a')

/-- Statement of length 4100 used by the C9 witness. -/
def longSqlWit : String := String.mk (List.replicate 4100 'a')

/-- Failing action used by the C8 witness. -/
def boomAction : RunState → Except String Nat × List Action × RunState :=
  fun s => (Except.error ("boom"), [], s)

example : (checkSQLSecurity ("SELECT 1; DROP TABLE x")).safe = false := by decide
example : (checkSQLSecurity ("SELECT * FROM t")).safe = true := by decide
example : (checkSQLSecurity ("EXEC x")).safe = false := by decide
example : (checkSQLSecurity ("SELECT a INTO OUTFILE f")).safe = false := by decide
example : (checkSQLSecurity ("SELECT 1 ;  drop t")).safe = false := by decide
example : (checkSQLSecurity ("SELECT executive FROM t")).safe = true := by decide

example : firstTokenUpper ("  select * from t") = "SELECT" := by decide
example : firstTokenUpper ("SELECT\n* FROM t") = "SELECT\n*" := by decide
example : firstTokenUpper ("") = "" := by decide

example :
    (executeReadOnlyQuery allOkWorld ("SELECT 1")).2.1 =
      [Action.acquire, Action.setReadOnly, Action.beginTx,
       Action.runQuery ("SELECT 1"), Action.rollback, Action.setReadWrite,
       Action.log { operation := "SELECT", sql := "SELECT 1", duration := 5,
                    success := true, error := none, affectedRows := none },
       Action.release] := by decide

example :
    (executeModifyQuery allOkWorld ("EXEC x") []).2.1 = [Action.acquire] := by decide

example :
    (executeModifyQuery allOkWorld ("EXEC x") []).2.2.releaseCount = 0 := by decide

example :
    (listTablesHandler allOkWorld).1 = Except.ok [["users"]] := rfl

example :
    (describeTableHandler allOkWorld (some ("users"))).1 =
      Except.ok [["id", "int"]] := rfl

/-- A pattern whose head is a literal that is not the letter A never
matches a run of the letter a at any position. -/
lemma rtest_lit_head_ne (c : Char) (ps : List RElem)
    (h : ¬ ('A' = c.toUpper)) :
    ∀ n, rtest (RElem.lit c :: ps) (List.replicate n 'a') = false := by
  intro n
  induction n with
  | zero => simp [rtest, matchHere]
  | succ n ih => simp [List.replicate_succ, rtest, matchHere, h, ih]

/-- No denylist pattern matches a pure run of the letter a: each pattern
starts with a semicolon, an E or an I literal. -/
lemma rtest_dangerous_replicate_a (p : List RElem) (hp : p ∈ dangerousPatterns)
    (n : Nat) : rtest p (List.replicate n 'a') = false := by
  fin_cases hp
  · exact rtest_lit_head_ne ';' _ (by decide) n
  · exact rtest_lit_head_ne ';' _ (by decide) n
  · exact rtest_lit_head_ne ';' _ (by decide) n
  · exact rtest_lit_head_ne ';' _ (by decide) n
  · exact rtest_lit_head_ne 'E' _ (by decide) n
  · exact rtest_lit_head_ne 'E' _ (by decide) n
  · exact rtest_lit_head_ne 'I' _ (by decide) n
  · exact rtest_lit_head_ne 'I' _ (by decide) n

/-- The guard accepts every pure run of the letter a, of any length. -/
lemma checkSQLSecurity_replicate_a (n : Nat) :
    checkSQLSecurity (String.mk (List.replicate n 'a')) =
      { safe := true, reason := none } := by
  have h : (dangerousPatterns.any
      (fun p => rtest p (String.mk (List.replicate n 'a')).data)) = false := by
    rw [List.any_eq_false]
    intro p hp
    simpa using rtest_dangerous_replicate_a p hp n
  simp [checkSQLSecurity, h]

/-- Length of the pure run of the letter a. -/
lemma length_replicate_a (n : Nat) :
    (String.mk (List.replicate n 'a')).length = n := by
  simp [String.length]

/-- Rows returned by the generic executor are exactly the catalog
denotation of the issued statement. -/
lemma executeQuery_ok_rows (w : World) (sql : String) (params : List String)
    (rows : List (List String))
    (h : (executeQuery w sql params).1 = Except.ok rows) :
    rows = evalCatalogQuery w.catalog sql params := by
  by_cases hp : w.poolOk
  · by_cases hs : (checkSQLSecurity sql).safe
    · by_cases hl : (checkQueryLimits sql).safe
      · by_cases hq : w.queryOk
        · simp [executeQuery, withPerformanceMonitoring, hp, hs, hl, hq] at h
          exact h.symm
        · simp [executeQuery, withPerformanceMonitoring, hp, hs, hl, hq] at h
      · simp [executeQuery, hp, hs, hl] at h
    · simp [executeQuery, hp, hs] at h
  · simp [executeQuery, hp] at h

/-- C2: the guard returns an unsafe verdict with a reason exactly when
the statement matches one of the eight fixed case-insensitive denylist
patterns (semicolon then DROP, DELETE FROM, UPDATE or INSERT; EXEC or
EXECUTE followed by whitespace; INTO OUTFILE; INTO DUMPFILE), and every
statement matching no pattern is returned safe with no reason. -/
theorem checkSQLSecurity_denylist_iff :
    (∀ sql : String,
      ((checkSQLSecurity sql).safe = false ↔
        (rtest patSemiDrop sql.data = true ∨ rtest patSemiDeleteFrom sql.data = true ∨
         rtest patSemiUpdate sql.data = true ∨ rtest patSemiInsert sql.data = true ∨
         rtest patExecute sql.data = true ∨ rtest patExec sql.data = true ∨
         rtest patIntoOutfile sql.data = true ∨ rtest patIntoDumpfile sql.data = true))) ∧
    (∀ sql : String, (checkSQLSecurity sql).safe = false →
        (checkSQLSecurity sql).reason = some injectionReason) ∧
    (∀ sql : String, (checkSQLSecurity sql).safe = true →
        (checkSQLSecurity sql).reason = none) := by
  have key : ∀ sql : String, (checkSQLSecurity sql).safe = false ↔
      dangerousPatterns.any (fun p => rtest p sql.data) = true := by
    intro sql
    by_cases hd : dangerousPatterns.any (fun p => rtest p sql.data) <;>
      simp [checkSQLSecurity, hd]
  refine ⟨fun sql => ?_, fun sql h => ?_, fun sql h => ?_⟩
  · rw [key sql]
    simp [dangerousPatterns, List.any_cons, List.any_nil, Bool.or_eq_true]
  · by_cases hd : dangerousPatterns.any (fun p => rtest p sql.data)
    · simp [checkSQLSecurity, hd]
    · simp [checkSQLSecurity, hd] at h
  · by_cases hd : dangerousPatterns.any (fun p => rtest p sql.data)
    · simp [checkSQLSecurity, hd] at h
    · simp [checkSQLSecurity, hd]

/-- Witness for C2: the stacked statement from the spec example is
rejected with the fixed reason, via the main theorem. -/
theorem checkSQLSecurity_denylist_iff_witness :
    (checkSQLSecurity ("SELECT 1; DROP TABLE x")).safe = false ∧
    (checkSQLSecurity ("SELECT 1; DROP TABLE x")).reason = some injectionReason ∧
    (checkSQLSecurity ("SELECT * FROM t")).reason = none := by
  have h1 := (checkSQLSecurity_denylist_iff.1 ("SELECT 1; DROP TABLE x")).mpr
    (by decide)
  exact ⟨h1, checkSQLSecurity_denylist_iff.2.1 _ h1,
    checkSQLSecurity_denylist_iff.2.2 ("SELECT * FROM t") (by decide)⟩

/-- C4: the read-only executor never issues a commit; every successful
call performs, in order, set read-only, begin, the statement, rollback,
set read-write (then the log emission and the release), leaving the
session read-write with no open transaction; and when a step fails after
a safe guard verdict, the executor rolls back and propagates the error
with no open transaction. -/
theorem executeReadOnlyQuery_transaction_discipline :
    (∀ (w : World) (sql : String),
        Action.commit ∉ (executeReadOnlyQuery w sql).2.1) ∧
    (∀ (w : World) (sql : String) (v : QueryEnvelope),
        (executeReadOnlyQuery w sql).1 = Except.ok v →
        ((executeReadOnlyQuery w sql).2.1 =
          [Action.acquire, Action.setReadOnly, Action.beginTx, Action.runQuery sql,
           Action.rollback, Action.setReadWrite,
           Action.log { operation := "SELECT", sql := sql, duration := w.dur,
                        success := true, error := none, affectedRows := none },
           Action.release] ∧
         (executeReadOnlyQuery w sql).2.2.txOpen = false ∧
         (executeReadOnlyQuery w sql).2.2.sessionReadOnly = false)) ∧
    (∀ (w : World) (sql : String) (e : String),
        w.poolOk = true → (checkSQLSecurity sql).safe = true →
        (executeReadOnlyQuery w sql).1 = Except.error e →
        (Action.rollback ∈ (executeReadOnlyQuery w sql).2.1 ∧
         (executeReadOnlyQuery w sql).2.2.txOpen = false)) := by
  refine ⟨fun w sql => ?_, fun w sql v h => ?_, fun w sql e hp hs h => ?_⟩
  · by_cases hp : w.poolOk
    · by_cases hs : (checkSQLSecurity sql).safe
      · by_cases h1 : w.setReadOnlyOk <;> by_cases h2 : w.beginOk <;>
          by_cases h3 : w.queryOk <;> by_cases h4 : w.setReadWriteOk <;>
          simp [executeReadOnlyQuery, readOnlyAction, withPerformanceMonitoring,
            hp, hs, h1, h2, h3, h4]
      · simp [executeReadOnlyQuery, hp, hs]
    · simp [executeReadOnlyQuery, hp]
  · by_cases hp : w.poolOk
    · by_cases hs : (checkSQLSecurity sql).safe
      · by_cases h1 : w.setReadOnlyOk <;> by_cases h2 : w.beginOk <;>
          by_cases h3 : w.queryOk <;> by_cases h4 : w.setReadWriteOk <;>
          simp [executeReadOnlyQuery, readOnlyAction, withPerformanceMonitoring,
            hp, hs, h1, h2, h3, h4, initState] at h ⊢
      · simp [executeReadOnlyQuery, hp, hs] at h
    · simp [executeReadOnlyQuery, hp] at h
  · by_cases h1 : w.setReadOnlyOk <;> by_cases h2 : w.beginOk <;>
      by_cases h3 : w.queryOk <;> by_cases h4 : w.setReadWriteOk <;>
      simp [executeReadOnlyQuery, readOnlyAction, withPerformanceMonitoring,
        hp, hs, h1, h2, h3, h4, initState] at h ⊢

/-- Witness for C4: the all-success run on a short statement, via the
main theorem. -/
theorem executeReadOnlyQuery_transaction_discipline_witness :
    (executeReadOnlyQuery allOkWorld ("SELECT 1")).2.1 =
      [Action.acquire, Action.setReadOnly, Action.beginTx,
       Action.runQuery ("SELECT 1"), Action.rollback, Action.setReadWrite,
       Action.log { operation := "SELECT", sql := "SELECT 1", duration := 5,
                    success := true, error := none, affectedRows := none },
       Action.release] ∧
    (executeReadOnlyQuery allOkWorld ("SELECT 1")).2.2.txOpen = false ∧
    (executeReadOnlyQuery allOkWorld ("SELECT 1")).2.2.sessionReadOnly = false := by
  exact executeReadOnlyQuery_transaction_discipline.2.1 allOkWorld ("SELECT 1")
    { isError := false } (by rfl)

/-- C5: for every statement the guard accepts, the modify executor runs
begin, the statement, commit, and returns the structured success record
with the driver result fields, committing the net effect; on any failure
inside the transaction it rolls back, leaves the committed database
unchanged with no open transaction, and returns a structured failure
record instead of throwing. -/
theorem executeModifyQuery_commit_or_rollback :
    (∀ (w : World) (sql : String) (params : List String),
        w.poolOk = true → (checkSQLSecurity sql).safe = true →
        w.beginOk = true → w.queryOk = true → w.commitOk = true →
        ((executeModifyQuery w sql params).1 =
            Except.ok { success := true, affectedRows := w.affectedRows,
                        insertId := w.insertId, message := w.resultMessage } ∧
         (executeModifyQuery w sql params).2.1 =
            [Action.acquire, Action.beginTx, Action.runQuery sql, Action.commit,
             Action.log { operation := firstTokenUpper sql, sql := sql,
                          duration := w.dur, success := true, error := none,
                          affectedRows := w.affectedRows },
             Action.release] ∧
         (executeModifyQuery w sql params).2.2.committed = w.dbInit + w.effect)) ∧
    (∀ (w : World) (sql : String) (params : List String),
        w.poolOk = true → (checkSQLSecurity sql).safe = true →
        ¬(w.beginOk = true ∧ w.queryOk = true ∧ w.commitOk = true) →
        ((∃ e : String, (executeModifyQuery w sql params).1 =
            Except.ok { success := false, affectedRows := none, insertId := none,
                        message := some e }) ∧
         Action.rollback ∈ (executeModifyQuery w sql params).2.1 ∧
         (executeModifyQuery w sql params).2.2.committed = w.dbInit ∧
         (executeModifyQuery w sql params).2.2.pending = 0 ∧
         (executeModifyQuery w sql params).2.2.txOpen = false)) := by
  refine ⟨fun w sql params hp hs h1 h2 h3 => ?_, fun w sql params hp hs hfail => ?_⟩
  · simp [executeModifyQuery, modifyAction, withPerformanceMonitoring,
      hp, hs, h1, h2, h3, initState]
  · by_cases h1 : w.beginOk <;> by_cases h2 : w.queryOk <;> by_cases h3 : w.commitOk <;>
      simp [executeModifyQuery, modifyAction, withPerformanceMonitoring,
        hp, hs, h1, h2, h3, initState] at hfail ⊢

/-- Witness for C5: an accepted insert commits through the full success
path, and the same insert under a failing commit rolls back with the
committed database unchanged, via the main theorem. -/
theorem executeModifyQuery_commit_or_rollback_witness :
    (executeModifyQuery allOkWorld insertSql []).1 =
      Except.ok { success := true, affectedRows := some 1, insertId := some 7,
                  message := none } ∧
    (executeModifyQuery allOkWorld insertSql []).2.2.committed = 1 ∧
    Action.rollback ∈ (executeModifyQuery commitFailWorld insertSql []).2.1 ∧
    (executeModifyQuery commitFailWorld insertSql []).2.2.committed = 0 := by
  have hs : (checkSQLSecurity insertSql).safe = true := by decide
  have h1 := executeModifyQuery_commit_or_rollback.1 allOkWorld insertSql [] rfl hs
    rfl rfl rfl
  have h2 := executeModifyQuery_commit_or_rollback.2 commitFailWorld insertSql [] rfl hs
    (by simp [commitFailWorld, allOkWorld])
  exact ⟨h1.1, h1.2.2, h2.2.1, h2.2.2.1⟩

/-- C6: when the first space-delimited token of the trimmed statement
uppercases to SELECT, the mysql_execute dispatcher fails with the
usage-guidance error and issues no action at all: neither the modify
executor nor the database is reached. -/
theorem mysql_execute_rejects_select (w : World) (sql : String)
    (params : List String) (h : firstTokenUpper sql = "SELECT") :
    (mysqlExecuteHandler w sql params).1 = Except.error usageGuidanceMsg ∧
    (mysqlExecuteHandler w sql params).2.1 = [] := by
  simp [mysqlExecuteHandler, h]

/-- Witness for C6: the spec example statement is rejected with no action
issued, via the main theorem. -/
theorem mysql_execute_rejects_select_witness :
    (mysqlExecuteHandler allOkWorld ("SELECT * FROM t") []).1 =
      Except.error usageGuidanceMsg ∧
    (mysqlExecuteHandler allOkWorld ("SELECT * FROM t") []).2.1 = [] :=
  mysql_execute_rejects_select allOkWorld ("SELECT * FROM t") [] (by decide)

/-- C10: the mysql_execute dispatcher classifies a statement as SELECT
exactly when the first space-delimited token of the trimmed statement,
uppercased, equals SELECT; consequently the statement whose SELECT is
followed by a newline is not rejected and proceeds through the modify
executor to the database; and every log entry the modify executor emits
carries that same first token as its operation kind. -/
theorem mysql_execute_select_classification :
    (∀ (w : World) (sql : String) (params : List String),
        ((mysqlExecuteHandler w sql params).1 = Except.error usageGuidanceMsg ∧
         (mysqlExecuteHandler w sql params).2.1 = []) ↔
        firstTokenUpper sql = "SELECT") ∧
    ((mysqlExecuteHandler allOkWorld newlineSelectSql []).1 =
        Except.ok ({ success := true, affectedRows := some 1, insertId := some 7,
                     message := none }, false) ∧
     Action.runQuery newlineSelectSql ∈
       (mysqlExecuteHandler allOkWorld newlineSelectSql []).2.1) ∧
    (∀ (w : World) (sql : String) (params : List String) (e : LogEntry),
        Action.log e ∈ (executeModifyQuery w sql params).2.1 →
        e.operation = firstTokenUpper sql) := by
  refine ⟨fun w sql params => ?_, ⟨by rfl, by decide⟩, fun w sql params e h => ?_⟩
  · by_cases ht : firstTokenUpper sql = "SELECT"
    · exact ⟨fun _ => ht, fun _ => by simp [mysqlExecuteHandler, ht]⟩
    · refine ⟨fun hcontra => absurd ?_ ht, fun hsel => absurd hsel ht⟩
      exfalso
      by_cases hp : w.poolOk
      · by_cases hs : (checkSQLSecurity sql).safe
        · by_cases h1 : w.beginOk <;> by_cases h2 : w.queryOk <;>
            by_cases h3 : w.commitOk <;>
            simp [mysqlExecuteHandler, executeModifyQuery, modifyAction,
              withPerformanceMonitoring, ht, hp, hs, h1, h2, h3] at hcontra
        · simp [mysqlExecuteHandler, executeModifyQuery, ht, hp, hs] at hcontra
      · simp [mysqlExecuteHandler, executeModifyQuery, ht, hp] at hcontra
        exact (by decide : ¬ (connErrMsg = usageGuidanceMsg)) hcontra
  · by_cases hp : w.poolOk
    · by_cases hs : (checkSQLSecurity sql).safe
      · by_cases h1 : w.beginOk <;> by_cases h2 : w.queryOk <;>
          by_cases h3 : w.commitOk <;>
          simp [executeModifyQuery, modifyAction, withPerformanceMonitoring,
            hp, hs, h1, h2, h3] at h <;> simp [h]
      · simp [executeModifyQuery, hp, hs] at h
    · simp [executeModifyQuery, hp] at h

/-- Witness for C10: a lowercase select statement is classified as
SELECT and rejected, and the log entry of the newline statement carries
the first space-delimited token as its operation kind, via the main
theorem. -/
theorem mysql_execute_select_classification_witness :
    ((mysqlExecuteHandler allOkWorld ("select * from t") []).1 =
        Except.error usageGuidanceMsg ∧
     (mysqlExecuteHandler allOkWorld ("select * from t") []).2.1 = []) ∧
    ({ operation := firstTokenUpper newlineSelectSql,
       sql := newlineSelectSql, duration := 5, success := true, error := none,
       affectedRows := some 1 } : LogEntry).operation =
      firstTokenUpper newlineSelectSql := by
  refine ⟨(mysql_execute_select_classification.1 allOkWorld ("select * from t")
    []).mpr (by decide), ?_⟩
  exact mysql_execute_select_classification.2.2 allOkWorld newlineSelectSql []
    { operation := firstTokenUpper newlineSelectSql, sql := newlineSelectSql,
      duration := 5, success := true, error := none, affectedRows := some 1 }
    (by decide)

/-- Rows of the tables catalog query all come from the current database. -/
lemma evalTables_mem (cat : ServerCatalog) (params : List String)
    (row : List String) (h : row ∈ evalCatalogQuery cat listTablesQuery params) :
    ∃ r ∈ cat.tables, r.tableSchema = cat.currentDb ∧ row = [r.tableName] := by
  simp [evalCatalogQuery] at h
  obtain ⟨r, ⟨hr, hsch⟩, hrow⟩ := h
  exact ⟨r, hr, hsch, hrow.symm⟩

/-- Rows of the columns catalog query all come from the current database. -/
lemma evalColumns_mem (cat : ServerCatalog) (params : List String)
    (row : List String) (h : row ∈ evalCatalogQuery cat columnMetadataQuery params) :
    ∃ c ∈ cat.columns, c.tableSchema = cat.currentDb ∧
      row = [c.columnName, c.dataType] := by
  have hne : (columnMetadataQuery == listTablesQuery) = false := by decide
  simp [evalCatalogQuery, hne] at h
  match params, h with
  | [t], h =>
    simp at h
    obtain ⟨c, ⟨hc, hsch, _⟩, hrow⟩ := h
    exact ⟨c, hc, hsch, hrow.symm⟩

/-- C3: every row returned by list_tables, describe_table, resource
listing and resource reading is drawn from a catalog entry whose schema
equals the currently connected database. -/
theorem catalog_queries_current_db_scoped :
    (∀ (w : World) (rows : List (List String)),
        (listTablesHandler w).1 = Except.ok rows →
        ∀ row ∈ rows, ∃ r ∈ w.catalog.tables,
          r.tableSchema = w.catalog.currentDb ∧ row = [r.tableName]) ∧
    (∀ (w : World) (t : Option String) (rows : List (List String)),
        (describeTableHandler w t).1 = Except.ok rows →
        ∀ row ∈ rows, ∃ c ∈ w.catalog.columns,
          c.tableSchema = w.catalog.currentDb ∧ row = [c.columnName, c.dataType]) ∧
    (∀ (w : World) (rows : List (List String)),
        (listResourcesHandler w).1 = Except.ok rows →
        ∀ row ∈ rows, ∃ r ∈ w.catalog.tables,
          r.tableSchema = w.catalog.currentDb ∧ row = [r.tableName]) ∧
    (∀ (w : World) (pathname : String) (rows : List (List String)),
        (readResourceHandler w pathname).1 = Except.ok rows →
        ∀ row ∈ rows, ∃ c ∈ w.catalog.columns,
          c.tableSchema = w.catalog.currentDb ∧ row = [c.columnName, c.dataType]) := by
  refine ⟨fun w rows h row hrow => ?_, fun w t rows h row hrow => ?_,
    fun w rows h row hrow => ?_, fun w pathname rows h row hrow => ?_⟩
  · have := executeQuery_ok_rows w listTablesQuery [] rows h
    exact evalTables_mem w.catalog [] row (this ▸ hrow)
  · match t, h with
    | some tn, h =>
      by_cases hz : tn == ""
      · simp [describeTableHandler, hz] at h
      · simp only [describeTableHandler, hz, Bool.false_eq_true, if_false] at h
        have := executeQuery_ok_rows w columnMetadataQuery [tn] rows h
        exact evalColumns_mem w.catalog [tn] row (this ▸ hrow)
  · have := executeQuery_ok_rows w listTablesQuery [] rows h
    exact evalTables_mem w.catalog [] row (this ▸ hrow)
  · by_cases hm : ((pathname.splitOn ("/")).getLast? == some ("schema"))
    · simp only [readResourceHandler, hm, if_true] at h
      have := executeQuery_ok_rows w columnMetadataQuery _ rows h
      exact evalColumns_mem w.catalog _ row (this ▸ hrow)
    · simp [readResourceHandler, hm] at h

/-- Witness for C3: against the two-schema catalog the tables query
returns only the main-schema table and the columns query only the
main-schema column, via the main theorem. -/
theorem catalog_queries_current_db_scoped_witness :
    (∃ r ∈ allOkWorld.catalog.tables,
        r.tableSchema = allOkWorld.catalog.currentDb ∧ ["users"] = [r.tableName]) ∧
    (∃ c ∈ allOkWorld.catalog.columns,
        c.tableSchema = allOkWorld.catalog.currentDb ∧
        ["id", "int"] = [c.columnName, c.dataType]) := by
  refine ⟨catalog_queries_current_db_scoped.1 allOkWorld [["users"]] (by rfl)
    (["users"]) (by simp),
    catalog_queries_current_db_scoped.2.1 allOkWorld (some ("users"))
      [["id", "int"]] (by rfl) (["id", "int"]) (by simp)⟩

/-- C1 (code defect): each executor acquires its connection before the
guard runs, and the guard-rejection branch returns or throws before the
cleanup clause, so the acquired connection is released zero times there;
by contrast the normal return and the thrown-database-error paths do
release exactly once. -/
theorem connection_leak_on_guard_rejection :
    (checkSQLSecurity execSql).safe = false ∧
    Action.acquire ∈ (executeModifyQuery allOkWorld execSql []).2.1 ∧
    (executeModifyQuery allOkWorld execSql []).2.2.releaseCount = 0 ∧
    Action.release ∉ (executeModifyQuery allOkWorld execSql []).2.1 ∧
    Action.acquire ∈ (executeReadOnlyQuery allOkWorld execSql).2.1 ∧
    (executeReadOnlyQuery allOkWorld execSql).2.2.releaseCount = 0 ∧
    Action.release ∉ (executeReadOnlyQuery allOkWorld execSql).2.1 ∧
    Action.acquire ∈ (executeQuery allOkWorld execSql []).2.1 ∧
    (executeQuery allOkWorld execSql []).2.2.releaseCount = 0 ∧
    Action.release ∉ (executeQuery allOkWorld execSql []).2.1 ∧
    (executeModifyQuery allOkWorld insertSql []).2.2.releaseCount = 1 ∧
    (executeReadOnlyQuery allOkWorld ("SELECT 1")).2.2.releaseCount = 1 ∧
    (executeReadOnlyQuery queryFailWorld ("SELECT 1")).2.2.releaseCount = 1 ∧
    (executeModifyQuery queryFailWorld insertSql []).2.2.releaseCount = 1 := by
  decide

/-- C7 (code defect): mysql_query routes to executeReadOnlyQuery, which
never calls checkQueryLimits, so a statement one character over the
configured maximum passes the guard, reaches the database and succeeds,
although the length check rejects it and the tool description promises a
4096-character maximum. -/
theorem mysql_query_length_limit_not_enforced :
    longSql.length > maxQueryLength ∧
    (checkQueryLimits longSql).safe = false ∧
    (mysqlQueryHandler allOkWorld longSql).1 = Except.ok { isError := false } ∧
    Action.runQuery longSql ∈ (mysqlQueryHandler allOkWorld longSql).2.1 := by
  have hlen : longSql.length = 4097 := length_replicate_a 4097
  have hsafe : checkSQLSecurity longSql = { safe := true, reason := none } :=
    checkSQLSecurity_replicate_a 4097
  refine ⟨by rw [hlen]; decide, by simp [checkQueryLimits, hlen, maxQueryLength], ?_, ?_⟩
  · simp [mysqlQueryHandler, executeReadOnlyQuery, readOnlyAction,
      withPerformanceMonitoring, hsafe, allOkWorld]
  · simp [mysqlQueryHandler, executeReadOnlyQuery, readOnlyAction,
      withPerformanceMonitoring, hsafe, allOkWorld]

/-- Counterexample for C9: on an over-length statement the generic
executor does acquire a connection from the pool, and only then rejects,
refuting the claim that the rejection happens before any connection is
acquired or touched. -/
theorem limit_rejection_after_acquire_cex :
    (checkQueryLimits longSqlCex).safe = false ∧
    (executeQuery allOkWorld longSqlCex []).1 = Except.error limitReason ∧
    Action.acquire ∈ (executeQuery allOkWorld longSqlCex []).2.1 := by
  have hlen : longSqlCex.length = 4200 := length_replicate_a 4200
  have hsafe : checkSQLSecurity longSqlCex = { safe := true, reason := none } :=
    checkSQLSecurity_replicate_a 4200
  refine ⟨by simp [checkQueryLimits, hlen, maxQueryLength], ?_, ?_⟩
  · simp [executeQuery, checkQueryLimits, hlen, maxQueryLength, hsafe, allOkWorld]
  · simp [executeQuery, checkQueryLimits, hlen, maxQueryLength, hsafe, allOkWorld]

/-- C9 as amended: for every over-length statement that matches no
denylist pattern, the generic executor rejects it with the limit reason
after acquiring a connection but before issuing any statement to the
database: the whole trace is the single acquisition. -/
theorem limit_rejection_before_database (w : World) (sql : String)
    (params : List String) (hp : w.poolOk = true)
    (hs : (checkSQLSecurity sql).safe = true)
    (hl : sql.length > maxQueryLength) :
    (executeQuery w sql params).1 = Except.error limitReason ∧
    (executeQuery w sql params).2.1 = [Action.acquire] := by
  constructor <;> simp [executeQuery, checkQueryLimits, hp, hs, hl]

/-- The 4100-character statement passes the denylist guard. -/
lemma checkSQLSecurity_longSqlWit : (checkSQLSecurity longSqlWit).safe = true := by
  have h : checkSQLSecurity longSqlWit = { safe := true, reason := none } :=
    checkSQLSecurity_replicate_a 4100
  rw [h]

/-- Length of the 4100-character statement. -/
lemma longSqlWit_length : longSqlWit.length = 4100 :=
  length_replicate_a 4100

/-- Witness for C9 as amended: the 4100-character statement is rejected
with only the acquisition in the trace, via the amended theorem. -/
theorem limit_rejection_before_database_witness :
    (executeQuery allOkWorld longSqlWit []).1 = Except.error limitReason ∧
    (executeQuery allOkWorld longSqlWit []).2.1 = [Action.acquire] :=
  limit_rejection_before_database allOkWorld longSqlWit [] rfl
    checkSQLSecurity_longSqlWit
    (by rw [longSqlWit_length]; decide)

/-- Counterexample for C8: a guard rejection in the modify executor is a
surfaced failure (structured success false result) whose trace is the
bare acquisition: no log entry is emitted for it. -/
theorem security_rejection_unlogged_cex :
    (executeModifyQuery allOkWorld executeKwSql []).1 =
      Except.ok { success := false, affectedRows := none, insertId := none,
                  message := some injectionReason } ∧
    (executeModifyQuery allOkWorld executeKwSql []).2.1 = [Action.acquire] :=
  ⟨rfl, rfl⟩

/-- C8 as amended: the instrumentation wrapper passes the result of the
action through unchanged and appends exactly one log entry recording the
duration and the outcome, re-raising the original failure after logging
it; but the guard-rejection branches of the three executors run before
the wrapper is entered and surface their failure without any log
emission. -/
theorem instrumentation_logging_amended :
    (∀ (α : Type) (operation sql : String) (dur : Nat) (getAff : α → Option Nat)
        (action : RunState → Except String α × List Action × RunState) (s : RunState),
        ((withPerformanceMonitoring operation sql dur getAff action s).1 = (action s).1 ∧
         (∀ e : String, (action s).1 = Except.error e →
            (withPerformanceMonitoring operation sql dur getAff action s).2.1 =
              (action s).2.1 ++
                [Action.log { operation := operation, sql := sql, duration := dur,
                              success := false, error := some e, affectedRows := none }]) ∧
         (∀ v : α, (action s).1 = Except.ok v →
            (withPerformanceMonitoring operation sql dur getAff action s).2.1 =
              (action s).2.1 ++
                [Action.log { operation := operation, sql := sql, duration := dur,
                              success := true, error := none,
                              affectedRows := getAff v }]))) ∧
    (∀ (w : World) (sql : String) (params : List String),
        (checkSQLSecurity sql).safe = false →
        ((∀ e : LogEntry, Action.log e ∉ (executeModifyQuery w sql params).2.1) ∧
         (∀ e : LogEntry, Action.log e ∉ (executeReadOnlyQuery w sql).2.1) ∧
         (∀ e : LogEntry, Action.log e ∉ (executeQuery w sql params).2.1))) := by
  constructor
  · intro α operation sql dur getAff action s
    rcases hact : action s with ⟨r, tr, s2⟩
    cases r with
    | error err =>
        refine ⟨by simp [withPerformanceMonitoring, hact], fun e he => ?_, fun v hv => ?_⟩
        · simp only [hact] at he
          simp at he
          simp [withPerformanceMonitoring, hact, he]
        · simp only [hact] at hv
          simp at hv
    | ok v0 =>
        refine ⟨by simp [withPerformanceMonitoring, hact], fun e he => ?_, fun v hv => ?_⟩
        · simp only [hact] at he
          simp at he
        · simp only [hact] at hv
          simp at hv
          simp [withPerformanceMonitoring, hact, hv]
  · intro w sql params hs
    by_cases hp : w.poolOk <;>
      refine ⟨fun e => ?_, fun e => ?_, fun e => ?_⟩ <;>
      simp [executeModifyQuery, executeReadOnlyQuery, executeQuery, hs, hp]

/-- Witness for C8 as amended: the wrapper logs a concrete failing
action once with its duration and re-raises the failure, and the modify
executor emits no log entry at a concrete guard-rejected statement, via
the amended theorem. -/
theorem instrumentation_logging_amended_witness :
    (withPerformanceMonitoring ("SELECT") ("SELECT 1") 3 (fun _ => none) boomAction
        (initState allOkWorld)).2.1 =
      [Action.log { operation := "SELECT", sql := "SELECT 1", duration := 3,
                    success := false, error := some ("boom"), affectedRows := none }] ∧
    (withPerformanceMonitoring ("SELECT") ("SELECT 1") 3 (fun _ => none) boomAction
        (initState allOkWorld)).1 = Except.error ("boom") ∧
    Action.log { operation := firstTokenUpper execSql, sql := execSql, duration := 5,
                 success := false, error := some injectionReason,
                 affectedRows := none } ∉
      (executeModifyQuery allOkWorld execSql []).2.1 := by
  have h := instrumentation_logging_amended.1 Nat ("SELECT") ("SELECT 1") 3
    (fun _ => none) boomAction (initState allOkWorld)
  refine ⟨?_, ?_, ?_⟩
  · simpa [boomAction] using h.2.1 ("boom") rfl
  · simpa [boomAction] using h.1
  · exact (instrumentation_logging_amended.2 allOkWorld execSql [] (by decide)).1 _

end MysqlMcp
